import Mathlib

/-!
Shallow embedding of the Gordan Messenger-bot webhook server (`app.js`):
signature verification, webhook GET/POST handlers, event dispatch, the
message responder and the outbound message builders.

Modelling conventions:
* Bytes are `Nat` values `< 256`; 32-bit machine words are `Nat` with explicit
  `% 4294967296` where overflow matters.
* JavaScript `undefined` is `Option.none`; a JS value that may be a number or
  `NaN` is `Option ℚ` with `none` for `NaN` (`NaN` propagates through `*` and
  `_.round`, and `JSON.stringify` drops it, so no branch ever distinguishes
  two different `NaN`s).
* JS doubles are modelled as exact rationals.  The literals `0.13` and `1.13`
  are taken at their decimal value, and lodash `_.round(x, 2)`, which shifts
  the decimal representation by two digits and applies `Math.round`
  (round half toward +infinity), is modelled as such on exact rationals.
  On the program's price domain (`4.99`, `6.99`, `9.99`) this agrees with the
  IEEE-754 evaluation, checked externally against the reference runtime.
-/

namespace Gordan

/-! ## SHA-1 and HMAC-SHA1 (`crypto.createHmac('sha1', …)`), FIPS 180-4 / FIPS 198-1 -/

/-- Left rotation of a 32-bit word held in a `Nat`. -/
def rotl32 (n x : Nat) : Nat :=
  ((x <<< n) ||| (x >>> (32 - n))) % 4294967296

/-- SHA-1 round function `f_t` (FIPS 180-4 §4.1.1). -/
def sha1f (t b c d : Nat) : Nat :=
  if t < 20 then (b &&& c) ||| ((b ^^^ 4294967295) &&& d)
  else if t < 40 then b ^^^ c ^^^ d
  else if t < 60 then (b &&& c) ||| (b &&& d) ||| (c &&& d)
  else b ^^^ c ^^^ d

/-- SHA-1 round constants `K_t`. -/
def sha1k (t : Nat) : Nat :=
  if t < 20 then 0x5A827999
  else if t < 40 then 0x6ED9EBA1
  else if t < 60 then 0x8F1BBCDC
  else 0xCA62C1D6

/-- Group a byte list into big-endian 32-bit words. -/
def bytesToWords : List Nat → List Nat
  | b0 :: b1 :: b2 :: b3 :: rest =>
      (((b0 * 256 + b1) * 256 + b2) * 256 + b3) :: bytesToWords rest
  | _ => []

/-- Big-endian byte serialization of one 32-bit word. -/
def wordBytes (w : Nat) : List Nat :=
  [w / 16777216 % 256, w / 65536 % 256, w / 256 % 256, w % 256]

/-- Message-schedule extension: append `k` further words
`W_i = ROTL1 (W_{i-3} ⊕ W_{i-8} ⊕ W_{i-14} ⊕ W_{i-16})`. -/
def sha1Extend : Nat → List Nat → List Nat
  | 0, w => w
  | k + 1, w =>
      let i := w.length
      sha1Extend k (w ++ [rotl32 1 ((w.getD (i - 3) 0) ^^^ (w.getD (i - 8) 0) ^^^
        (w.getD (i - 14) 0) ^^^ (w.getD (i - 16) 0))])

/-- SHA-1 working state `(a, b, c, d, e)`. -/
abbrev Sha1State := Nat × Nat × Nat × Nat × Nat

/-- Run `k` SHA-1 rounds starting at round index `t`. -/
def sha1Rounds : Nat → Nat → List Nat → Sha1State → Sha1State
  | 0, _, _, st => st
  | k + 1, t, w, (a, b, c, d, e) =>
      sha1Rounds k (t + 1) w
        ((rotl32 5 a + sha1f t b c d + e + sha1k t + w.getD t 0) % 4294967296,
         a, rotl32 30 b, c, d)

/-- Compression of one 64-byte chunk into the running hash state. -/
def sha1Compress (h : Sha1State) (chunk : List Nat) : Sha1State :=
  let w := sha1Extend 64 (bytesToWords chunk)
  match h, sha1Rounds 80 0 w h with
  | (h0, h1, h2, h3, h4), (a, b, c, d, e) =>
      ((h0 + a) % 4294967296, (h1 + b) % 4294967296, (h2 + c) % 4294967296,
       (h3 + d) % 4294967296, (h4 + e) % 4294967296)

/-- SHA-1 padding: `0x80`, zeros to 56 mod 64, then the 64-bit big-endian bit length. -/
def sha1Pad (msg : List Nat) : List Nat :=
  let ml := 8 * msg.length
  msg ++ [128] ++ List.replicate ((119 - msg.length % 64) % 64) 0 ++
    [ml / 72057594037927936 % 256, ml / 281474976710656 % 256,
     ml / 1099511627776 % 256, ml / 4294967296 % 256] ++ wordBytes (ml % 4294967296)

/-- Fold the compression function over `k` consecutive 64-byte chunks. -/
def sha1Blocks : Nat → List Nat → Sha1State → Sha1State
  | 0, _, st => st
  | k + 1, msg, st => sha1Blocks k (msg.drop 64) (sha1Compress st (msg.take 64))

/-- SHA-1 of a byte list, as the 20-byte digest. -/
def sha1 (msg : List Nat) : List Nat :=
  let p := sha1Pad msg
  match sha1Blocks (p.length / 64) p
      (0x67452301, 0xEFCDAB89, 0x98BADCFE, 0x10325476, 0xC3D2E1F0) with
  | (h0, h1, h2, h3, h4) =>
      wordBytes h0 ++ wordBytes h1 ++ wordBytes h2 ++ wordBytes h3 ++ wordBytes h4

/-- HMAC-SHA1 (FIPS 198-1): key padded to the 64-byte block, inner/outer pads
`0x36`/`0x5c`. -/
def hmacSha1 (key msg : List Nat) : List Nat :=
  let k0 := if 64 < key.length then sha1 key else key
  let kp := k0 ++ List.replicate (64 - k0.length) 0
  sha1 ((kp.map (· ^^^ 0x5c)) ++ sha1 ((kp.map (· ^^^ 0x36)) ++ msg))

/-- One lowercase hex digit. -/
def hexDigit (n : Nat) : Char :=
  if n < 10 then Char.ofNat (48 + n) else Char.ofNat (87 + n)

/-- Lowercase hex encoding of a byte list (`digest('hex')`). -/
def hexOfBytes (bs : List Nat) : String :=
  String.mk (bs.flatMap (fun b => [hexDigit (b / 16), hexDigit (b % 16)]))

/-- The hex HMAC-SHA1 digest the verifier computes:
`crypto.createHmac('sha1', APP_SECRET).update(buf).digest('hex')`. -/
def hmacSha1Hex (key msg : List Nat) : String :=
  hexOfBytes (hmacSha1 key msg)

/-- Bytes of an ASCII string (the UTF-8 bytes, on the ASCII strings used here). -/
def asciiBytes (s : String) : List Nat :=
  s.toList.map Char.toNat

/-! ## JS string and number primitives used by the handlers -/

/-- Models lodash `_.startsWith(s, pre)` (equivalently JS `String.startsWith`)
as character-list prefix. -/
def jsStartsWith (s pre : String) : Bool :=
  pre.toList.isPrefixOf s.toList

/-- Split a character list at every occurrence of `sep` (the list never comes
back empty). -/
def splitChars (sep : Char) : List Char → List (List Char)
  | [] => [[]]
  | c :: rest =>
      match splitChars sep rest with
      | [] => [[]]
      | h :: t => if c = sep then [] :: h :: t else (c :: h) :: t

/-- Models JS `s.split(sep)` / lodash `_.split(s, sep)` for a one-character
separator: `"".split(sep)` is `[""]`, separators at the ends produce empty
fields. -/
def jsSplit (s : String) (sep : Char) : List String :=
  (splitChars sep s.toList).map String.mk

/-- Models JS `String.toLowerCase` on the ASCII strings this program matches
against (character-wise lower-casing). -/
def jsToLower (s : String) : String :=
  String.mk (s.toList.map Char.toLower)

/-- Whether `w` occurs as a contiguous run inside `l`. -/
def charsContain (l w : List Char) : Bool :=
  match l with
  | [] => w.isEmpty
  | _ :: rest => w.isPrefixOf l || charsContain rest w

/-- Models lodash `_.includes(s, w)` on strings: substring containment. -/
def jsIncludes (s w : String) : Bool :=
  charsContain s.toList w.toList

/-- Accumulate a digit list into a natural number. -/
def natOfDigits (l : List Char) : Nat :=
  l.foldl (fun a c => a * 10 + (c.toNat - 48)) 0

/-- Models JS numeric coercion `s * 1` (i.e. `Number(s)`) on the strings this
program produces: the empty string coerces to `0`, a nonnegative decimal
literal to its exact value, anything else to `NaN` (`none`).  (Signs,
exponents and whitespace never occur in the program's price fields.) -/
def parseDecimal (s : String) : Option ℚ :=
  if s = "" then some (mkRat 0 1)
  else
    match jsSplit s '.' with
    | [i] => if i.toList.all Char.isDigit then some (mkRat (natOfDigits i.toList) 1) else none
    | [i, f] =>
        if i.toList.all Char.isDigit && f.toList.all Char.isDigit && !(i = "" && f = "") then
          some (mkRat (natOfDigits i.toList * 10 ^ f.length + natOfDigits f.toList)
            (10 ^ f.length))
        else none
    | _ => none

/-- Rational multiplication through the (kernel-reducible) smart constructor
`mkRat`; equal to `a * b` (see `qMul_eq`). -/
def qMul (a b : ℚ) : ℚ :=
  mkRat (a.num * b.num) (a.den * b.den)

/-- JS `Math.round`: round half toward positive infinity,
`⌊q + 1/2⌋` computed as `(2·num + den) fdiv (2·den)` (see `jsMathRound_eq`). -/
def jsMathRound (q : ℚ) : ℤ :=
  Int.fdiv (2 * q.num + q.den) (2 * q.den)

/-- lodash `_.round(x, 2)` on an exact rational: shift by two decimal digits,
`Math.round`, shift back (see `round2_eq`). -/
def round2 (q : ℚ) : ℚ :=
  mkRat (jsMathRound (qMul q (mkRat 100 1))) 100

/-- Multiplication propagating `NaN`: `undefined * q` and `NaN * q` are `NaN`. -/
def jsMul (x : Option ℚ) (y : ℚ) : Option ℚ :=
  x.map (qMul · y)

/-- The rounding `_.round(x, 2)` lifted over a possibly-`NaN` value. -/
def jsRound2 (x : Option ℚ) : Option ℚ :=
  x.map round2

/-- JS coercion of a possibly-`undefined` string to a number: `undefined`
coerces to `NaN`. -/
def jsToNumber (s : Option String) : Option ℚ :=
  s.bind parseDecimal

/-! ## Signature verification (`verifyRequestSignature`) -/

/-- Outcome of `verifyRequestSignature`: the body-parser verify hook either
returns normally with a valid signature (`ok`), only logs an error and lets
processing continue (`loggedOnly`, the missing-header path), or throws,
aborting the request (`errorThrown`). -/
inductive VerifyResult
  | ok
  | loggedOnly
  | errorThrown
deriving DecidableEq

/-- Model of `verifyRequestSignature(req, res, buf)`: reads `req.headers["x-hub-signature"]`
(`none` when absent; an empty string is falsy like `undefined`), splits it on `=`,
and compares element 1 (`none` when the split has fewer than two fields, matching
JS `undefined`) with the lowercase hex HMAC-SHA1 of the raw body under
`APP_SECRET`, by plain string equality (`!=`).  The method name in element 0 is
never consulted. -/
def verifyRequestSignature (appSecret : String) (signature : Option String)
    (buf : List Nat) : VerifyResult :=
  match signature with
  | none => .loggedOnly
  | some s =>
      if s = "" then .loggedOnly
      else
        let elements := jsSplit s '='
        let signatureHash := elements[1]?
        let expectedHash := hmacSha1Hex (asciiBytes appSecret) buf
        if signatureHash = some expectedHash then .ok else .errorThrown

/-- Modelled from the spec: the "case-insensitive hex" comparison the spec
ascribes to the verifier — equality of hex strings after lower-casing.  The
source has no such comparison; this definition exists only to state the spec's
claim against the source's behaviour. -/
def hexEqCI (a b : String) : Bool :=
  jsToLower a == jsToLower b

/-! ## Outbound messages -/

/-- A button inside a generic-template element.  Fields the source omits on a
given button are `none`. -/
structure Button where
  btype : String
  title : Option String
  url : Option String
  payload : Option String
deriving DecidableEq

/-- One element (bubble) of a generic-template carousel. -/
structure GenericElement where
  title : String
  subtitle : String
  item_url : Option String
  image_url : String
  buttons : List Button
deriving DecidableEq

/-- The single line item of an order receipt (`sendOrderReceipt`).  `title` and
`image_url` are the raw payload fields (possibly `undefined`); `price` is the
rounded numeric price (`none` for `NaN`). -/
structure ReceiptElement where
  title : Option String
  quantity : Nat
  price : Option ℚ
  currency : String
  image_url : Option String
deriving DecidableEq

/-- The `summary` block of an order receipt. -/
structure ReceiptSummary where
  subtotal : Option ℚ
  shipping_cost : Option ℚ
  total_tax : Option ℚ
  total_cost : Option ℚ
deriving DecidableEq

/-- One outbound Send-API call (`callSendAPI(messageData)`), keeping the fields
the responder logic determines.  `generic` keeps `elements` as an `Option`
because `sendRecommendationsForRestaurant` passes `recommendations[restaurant]`,
which is `undefined` for an unknown key. -/
inductive Send
  | text (recipient : String) (body : String)
  | generic (recipient : String) (elements : Option (List GenericElement))
  | receipt (recipient : String) (element : ReceiptElement) (summary : ReceiptSummary)
deriving DecidableEq

/-! ## Message builders -/

/-- The keyword list guarding the restaurant recommendation. -/
def foodKeywords : List String :=
  ["hungry", "food", "meal", "snack", "cuisine", "drink", "chow",
   "breakfast", "lunch", "dinner", "brunch", "buffet"]

/-- The test `_.some(foodKeywords, word => _.includes(_.toLower(messageText), word))`. -/
def keywordMatch (messageText : String) : Bool :=
  foodKeywords.any (fun word => jsIncludes (jsToLower messageText) word)

/-- Model of `sendTextMessage(recipientId, messageText)`. -/
def sendTextMessage (recipientId messageText : String) : Send :=
  .text recipientId messageText

/-- The fixed three-restaurant carousel of `sendRestaurantRecommendation`. -/
def restaurantCarouselElements (serverURL : String) : List GenericElement :=
  [{ title := "Campus Pizza",
     subtitle := "Call us for all your pizza needs!",
     item_url := some "http://www.campuspizza.ca/",
     image_url := serverURL ++ "/assets/campus_pizza.png",
     buttons := [
       { btype := "web_url", title := some "Open Web URL",
         url := some "http://www.campuspizza.ca/", payload := none },
       { btype := "postback", title := some "I want this!",
         url := none, payload := some "restaurant_campus_pizza" }] },
   { title := "Foodie Fruitie",
     subtitle := "Ramen X Juice X Sushi",
     item_url := some "http://foodiefruitie.com/",
     image_url := serverURL ++ "/assets/foodie_fruitie.png",
     buttons := [
       { btype := "web_url", title := some "Open Web URL",
         url := some "http://foodiefruitie.com/", payload := none },
       { btype := "postback", title := some "I want this!",
         url := none, payload := some "restaurant_foodie_fruitie" }] },
   { title := "Williams Fresh Cafe",
     subtitle := "Canada's leading fast casual fresh food cafe",
     item_url := some "http://williamsfreshcafe.com/",
     image_url := serverURL ++ "/assets/williams.png",
     buttons := [
       { btype := "web_url", title := some "Open Web URL",
         url := some "http://williamsfreshcafe.com/", payload := none },
       { btype := "postback", title := some "I want this!",
         url := none, payload := some "restaurant_williams" }] }]

/-- Model of `sendRestaurantRecommendation(recipientId)`. -/
def sendRestaurantRecommendation (serverURL recipientId : String) : Send :=
  .generic recipientId (some (restaurantCarouselElements serverURL))

/-- One catalog menu item: title and price string, with the asset file name
from which both the element's `image_url` and its postback payload are built. -/
def catalogItem (serverURL title price asset : String) : GenericElement :=
  { title := title,
    subtitle := price,
    item_url := none,
    image_url := serverURL ++ "/assets/" ++ asset,
    buttons := [
      { btype := "postback", title := some "I want this!", url := none,
        payload := some ("item|" ++ title ++ "|" ++ price ++ "|" ++ serverURL ++ "/assets/" ++ asset) }] }

/-- The `recommendations` lookup table of `sendRecommendationsForRestaurant`,
keyed by the exact payload string; `none` models JS `undefined` for any other
key. -/
def recommendations (serverURL : String) (restaurant : String) :
    Option (List GenericElement) :=
  if restaurant = "restaurant_campus_pizza" then
    some [catalogItem serverURL "Vegetarian Pizza" "4.99" "vegetarian_pizza.png",
          catalogItem serverURL "Cheese Pizza" "4.99" "cheese_pizza.png",
          catalogItem serverURL "Pepperoni Pizza" "4.99" "pepperoni_pizza.png"]
  else if restaurant = "restaurant_foodie_fruitie" then
    some [catalogItem serverURL "Teriyaki Salmon" "9.99" "teriyaki_salmon.png",
          catalogItem serverURL "BBQ Pork Fried Rice" "9.99" "pork_fried_rice.png",
          catalogItem serverURL "Curry Ramen" "9.99" "curry_ramen.png"]
  else if restaurant = "restaurant_williams" then
    some [catalogItem serverURL "Chicken Quesadilla" "6.99" "chicken_quesadilla.png",
          catalogItem serverURL "William's Big Breakfast" "9.99" "big_breakfast.png",
          catalogItem serverURL "Mac'n'Cheese" "4.99" "mac_cheese.png"]
  else none

/-- Model of `sendRecommendationsForRestaurant(recipientId, restaurant)`: a generic
template whose `elements` field is the raw table lookup. -/
def sendRecommendationsForRestaurant (serverURL recipientId restaurant : String) : Send :=
  .generic recipientId (recommendations serverURL restaurant)

/-- Model of `sendOrderReceipt(recipientId, food, price, img_url)`: line-item price is
`_.round(price*1, 2)`; the summary holds `_.round(price*1, 2)`,
`shipping_cost: 0.00`, `_.round(price*0.13, 2)` and `_.round(price*1.13, 2)`.
(The random `order_number`, fixed `recipient_name`, `currency` and `address`
strings carry no logic and are not modelled.) -/
def sendOrderReceipt (recipientId : String) (food price img_url : Option String) : Send :=
  let p := jsToNumber price
  .receipt recipientId
    { title := food, quantity := 1, price := jsRound2 (jsMul p (mkRat 1 1)),
      currency := "CAD", image_url := img_url }
    { subtotal := jsRound2 (jsMul p (mkRat 1 1)),
      shipping_cost := some (mkRat 0 1),
      total_tax := jsRound2 (jsMul p (mkRat 13 100)),
      total_cost := jsRound2 (jsMul p (mkRat 113 100)) }

/-! ## Event handlers -/

/-- The fields of an inbound `message` object that `receivedMessage` branches
on.  `quick_reply` holds the payload when present; `text` is `none` for an
absent field (an empty string is falsy in the `if (messageText)` test). -/
structure MessageEvent where
  senderID : String
  is_echo : Bool
  quick_reply : Option String
  text : Option String
deriving DecidableEq

/-- Model of `receivedMessage(event)`, as the list of Send-API calls it makes, in
order.  Echoes return after logging; quick replies get the fixed
acknowledgement; otherwise truthy text is matched against `foodKeywords` and
answered with the carousel or the fixed fallback text; an event with neither
(e.g. attachments only) sends nothing. -/
def receivedMessage (serverURL : String) (e : MessageEvent) : List Send :=
  if e.is_echo then []
  else
    match e.quick_reply with
    | some _ => [sendTextMessage e.senderID "Quick reply tapped"]
    | none =>
        match e.text with
        | none => []
        | some t =>
            if t = "" then []
            else if keywordMatch t then [sendRestaurantRecommendation serverURL e.senderID]
            else [sendTextMessage e.senderID "I'm not sure what you mean"]

/-- Model of `receivedPostback(event)`, as the list of Send-API calls it makes, in
order.  `payload` is `event.postback.payload` (`none` when absent; the empty
string is falsy in `if(payload)`).  The `item` branch reads fields 1–3 of the
`|`-split (JS indexing past the end yields `undefined`). -/
def receivedPostback (serverURL senderID : String) (payload : Option String) : List Send :=
  match payload with
  | none => []
  | some p =>
      if p = "" then []
      else if jsStartsWith p "restaurant" then
        [sendTextMessage senderID "Want any of these?",
         sendRecommendationsForRestaurant serverURL senderID p]
      else if jsStartsWith p "item" then
        let payloadData := jsSplit p '|'
        [sendTextMessage senderID "We got your order!",
         sendOrderReceipt senderID payloadData[1]? payloadData[2]? payloadData[3]?]
      else [sendTextMessage senderID "Sorry, we couldn't understand your message"]

/-- Model of `receivedAuthentication(event)`. -/
def receivedAuthentication (senderID : String) : List Send :=
  [sendTextMessage senderID "Authentication successful"]

/-- One messaging event as dispatched by the POST handler: the first present
field among `optin`, `message`, `postback` decides the branch, anything else is
only logged. -/
inductive MessagingEvent
  | optin (senderID : String) (ref : String)
  | message (e : MessageEvent)
  | postback (senderID : String) (payload : Option String)
  | unknown
deriving DecidableEq

/-- The event dispatch inside `app.post('/webhook')`. -/
def dispatchEvent (serverURL : String) : MessagingEvent → List Send
  | .optin senderID _ => receivedAuthentication senderID
  | .message e => receivedMessage serverURL e
  | .postback senderID payload => receivedPostback serverURL senderID payload
  | .unknown => []

/-! ## HTTP routes -/

/-- Response of `app.get('/webhook')`: 200 with the (possibly absent)
`hub.challenge` value as body, or 403. -/
inductive GetResponse
  | ok (challengeBody : Option String)
  | forbidden
deriving DecidableEq

/-- Model of `app.get('/webhook')`: strict-equality tests on `hub.mode` and
`hub.verify_token` (each `none` when the query parameter is absent; `===`
against a string is then false). -/
def webhookGet (validationToken : String) (mode verify_token challenge : Option String) :
    GetResponse :=
  if mode = some "subscribe" ∧ verify_token = some validationToken then
    .ok challenge
  else .forbidden

/-- One page entry of a webhook POST body. -/
structure PageEntry where
  messaging : List MessagingEvent
deriving DecidableEq

/-- The decoded body of a webhook POST. -/
structure WebhookPostData where
  object : Option String
  entry : List PageEntry
deriving DecidableEq

/-- Model of `app.post('/webhook')`: when `data.object == 'page'`, every messaging event
of every entry is dispatched in array order and `200` is sent; otherwise the
handler falls through without calling `res` at all (`none`: no HTTP response). -/
def webhookPost (serverURL : String) (data : WebhookPostData) : Option Nat × List Send :=
  if data.object = some "page" then
    (some 200, (data.entry.map (fun pe => (pe.messaging.map (dispatchEvent serverURL)).flatten)).flatten)
  else (none, [])

/-! ## Bridge lemmas: the computable primitives agree with the standard forms -/

/-- The constructor `mkRat` is ordinary division in `ℚ`. -/
theorem mkRat_eq_q (n : ℤ) (d : ℕ) : (mkRat n d : ℚ) = (n : ℚ) / (d : ℚ) := by
  rw [Rat.mkRat_eq_divInt, Rat.divInt_eq_div]
  norm_num

/-- The operation `qMul` is ordinary multiplication in `ℚ`. -/
theorem qMul_eq (a b : ℚ) : qMul a b = a * b := by
  rw [qMul, Rat.mkRat_eq_divInt]
  conv_rhs => rw [← Rat.num_divInt_den a, ← Rat.num_divInt_den b]
  rw [Rat.divInt_mul_divInt']
  norm_cast

/-- The function `jsMathRound` is `⌊q + 1/2⌋`, JS `Math.round`. -/
theorem jsMathRound_eq (q : ℚ) : jsMathRound q = Int.floor (q + 1 / 2) := by
  have hd : ((q.den : ℚ)) ≠ 0 := by
    exact_mod_cast q.den_nz
  have hq : q + 1 / 2 = ((2 * q.num + (q.den : ℤ) : ℤ) : ℚ) / ((2 * q.den : ℕ) : ℚ) := by
    conv_lhs => rw [← Rat.num_div_den q]
    push_cast
    rw [div_add_div _ _ hd (by norm_num : (2 : ℚ) ≠ 0),
      div_eq_div_iff (mul_ne_zero hd (by norm_num)) (mul_ne_zero (by norm_num) hd)]
    ring
  rw [jsMathRound, hq, Rat.floor_intCast_div_natCast,
    Int.fdiv_eq_ediv _ (by positivity)]
  push_cast
  rfl

/-- The function `round2` is lodash `_.round(·, 2)`: scale by `10^2`, `Math.round`, scale
back. -/
theorem round2_eq (q : ℚ) : round2 q = ((Int.floor (q * 100 + 1 / 2) : ℤ) : ℚ) / 100 := by
  rw [round2, mkRat_eq_q, jsMathRound_eq, qMul_eq, mkRat_eq_q]
  norm_num

/-! ## Helper lemmas about payload prefixes -/

/-- A payload starting with `"item"` is truthy (nonempty). -/
theorem itemPrefix_ne_empty {p : String} (h : jsStartsWith p "item" = true) : ¬p = "" := by
  intro he
  subst he
  exact absurd h (by decide)

/-- A payload starting with `"restaurant"` is truthy (nonempty). -/
theorem restaurantPrefix_ne_empty {p : String} (h : jsStartsWith p "restaurant" = true) :
    ¬p = "" := by
  intro he
  subst he
  exact absurd h (by decide)

/-- A payload starting with `"item"` does not start with `"restaurant"`
(the branches of `receivedPostback` are mutually exclusive). -/
theorem itemPrefix_not_restaurant {p : String} (h : jsStartsWith p "item" = true) :
    jsStartsWith p "restaurant" = false := by
  unfold jsStartsWith at h ⊢
  rw [ List.isPrefixOf_iff_prefix] at h
  rw [Bool.eq_false_iff]
  intro hc
  rw [ List.isPrefixOf_iff_prefix] at hc
  have hi : "item".toList = 'i' :: "tem".toList := by decide
  have hr : "restaurant".toList = 'r' :: "estaurant".toList := by decide
  rw [hi] at h
  rw [hr] at hc
  obtain ⟨t1, ht1⟩ := h
  obtain ⟨t2, ht2⟩ := hc
  rw [← ht1] at ht2
  simp at ht2

/-! ## Claims -/

/-- C3: for every non-echo, non-quick-reply message event with non-empty text,
the responder emits the three-restaurant carousel if and only if the
lower-cased text contains some keyword of the fixed food-keyword set as a
substring; otherwise it emits the fixed text "I'm not sure what you mean". -/
theorem C3_keyword_carousel (serverURL senderID t : String) (h : ¬t = "") :
    (receivedMessage serverURL ⟨senderID, false, none, some t⟩ =
        [sendRestaurantRecommendation serverURL senderID] ↔
      keywordMatch t = true) ∧
    (keywordMatch t = false →
      receivedMessage serverURL ⟨senderID, false, none, some t⟩ =
        [sendTextMessage senderID "I'm not sure what you mean"]) ∧
    keywordMatch t = foodKeywords.any (fun word => jsIncludes (jsToLower t) word) := by
  have hmain : receivedMessage serverURL ⟨senderID, false, none, some t⟩ =
      if keywordMatch t then [sendRestaurantRecommendation serverURL senderID]
      else [sendTextMessage senderID "I'm not sure what you mean"] := by
    simp [receivedMessage, h]
  refine ⟨?_, ?_, rfl⟩
  · rw [hmain]
    cases hk : keywordMatch t <;>
      simp [sendTextMessage, sendRestaurantRecommendation]
  · intro hk
    rw [hmain, hk]
    simp

/-- C3 witness: "I'm HUNGRY now" is non-empty, matches the keyword "hungry"
case-insensitively, and gets the carousel. -/
theorem C3_keyword_carousel_witness :
    receivedMessage "http://s" ⟨"u", false, none, some "I'm HUNGRY now"⟩ =
      [sendRestaurantRecommendation "http://s" "u"] :=
  ((C3_keyword_carousel "http://s" "u" "I'm HUNGRY now" (by decide)).1).mpr (by decide)

/-- C5: a message event with the echo flag set produces no outbound send call,
whatever text or quick-reply content it carries (attachments are read but never
used by `receivedMessage`). -/
theorem C5_echo_no_send (serverURL senderID : String) (quick_reply text : Option String) :
    receivedMessage serverURL ⟨senderID, true, quick_reply, text⟩ = [] := by
  simp [receivedMessage]

/-- C6: a postback whose payload starts with "restaurant" sends the
acknowledgement text and then a generic-template carousel holding exactly the
catalog entries stored under the payload string as key; for
"restaurant_campus_pizza" these are exactly the three configured pizzas, in
table order. -/
theorem C6_restaurant_postback (serverURL senderID p : String)
    (h : jsStartsWith p "restaurant" = true) :
    receivedPostback serverURL senderID (some p) =
      [sendTextMessage senderID "Want any of these?",
       Send.generic senderID (recommendations serverURL p)] ∧
    recommendations serverURL "restaurant_campus_pizza" =
      some [catalogItem serverURL "Vegetarian Pizza" "4.99" "vegetarian_pizza.png",
            catalogItem serverURL "Cheese Pizza" "4.99" "cheese_pizza.png",
            catalogItem serverURL "Pepperoni Pizza" "4.99" "pepperoni_pizza.png"] := by
  have hne := restaurantPrefix_ne_empty h
  refine ⟨?_, by simp [recommendations]⟩
  simp [receivedPostback, hne, h, sendRecommendationsForRestaurant]

/-- C6 witness: the "restaurant_campus_pizza" postback itself. -/
theorem C6_restaurant_postback_witness :
    receivedPostback "http://s" "u" (some "restaurant_campus_pizza") =
      [sendTextMessage "u" "Want any of these?",
       Send.generic "u" (recommendations "http://s" "restaurant_campus_pizza")] :=
  (C6_restaurant_postback "http://s" "u" "restaurant_campus_pizza" (by decide)).1

/-- C7: a request with no signature header only logs (`loggedOnly`) and is not
aborted; the verifier only ever throws for a present, nonempty header whose
second `=`-field differs from the computed digest. -/
theorem C7_missing_signature_logs_only (secret : String) (buf : List Nat) :
    verifyRequestSignature secret none buf = VerifyResult.loggedOnly ∧
    (∀ sig : Option String,
      verifyRequestSignature secret sig buf = VerifyResult.errorThrown →
      ∃ s, sig = some s ∧ ¬s = "" ∧
        (jsSplit s '=')[1]? ≠ some (hmacSha1Hex (asciiBytes secret) buf)) := by
  refine ⟨rfl, ?_⟩
  intro sig h
  cases sig with
  | none => simp [verifyRequestSignature] at h
  | some s =>
      by_cases he : s = ""
      · simp only [verifyRequestSignature, if_pos he] at h
        exact VerifyResult.noConfusion h
      · by_cases hh : (jsSplit s '=')[1]? = some (hmacSha1Hex (asciiBytes secret) buf)
        · simp only [verifyRequestSignature, if_neg he, if_pos hh] at h
          exact VerifyResult.noConfusion h
        · exact ⟨s, rfl, he, hh⟩

set_option maxRecDepth 1000000 in
/-- C7 witness: a header "bad" with no '=' at all has no second field, throws,
and is reported with its mismatch. -/
theorem C7_missing_signature_logs_only_witness :
    ∃ s, (some "bad" : Option String) = some s ∧ ¬s = "" ∧
      (jsSplit s '=')[1]? ≠ some (hmacSha1Hex (asciiBytes "secret") (asciiBytes "body")) :=
  (C7_missing_signature_logs_only "secret" (asciiBytes "body")).2 (some "bad") (by decide)

/-- C8: GET /webhook answers 200 with the hub.challenge value exactly when
hub.mode is "subscribe" and hub.verify_token equals the configured token, and
403 in every other case. -/
theorem C8_webhook_get (validationToken : String) (mode verify_token challenge : Option String) :
    (webhookGet validationToken mode verify_token challenge = GetResponse.ok challenge ↔
      (mode = some "subscribe" ∧ verify_token = some validationToken)) ∧
    (¬(mode = some "subscribe" ∧ verify_token = some validationToken) →
      webhookGet validationToken mode verify_token challenge = GetResponse.forbidden) := by
  unfold webhookGet
  split
  · next hc => simp [hc]
  · next hc => simp [hc]

/-- C8 witness: token "right" against query token "wrong" gives 403. -/
theorem C8_webhook_get_witness :
    webhookGet "right" (some "subscribe") (some "wrong") (some "ch") =
      GetResponse.forbidden :=
  (C8_webhook_get "right" (some "subscribe") (some "wrong") (some "ch")).2 (by decide)

/-- C9: a POST /webhook body whose `object` field is not "page" falls through
the handler without any HTTP response being sent. -/
theorem C9_non_page_unanswered (serverURL : String) (data : WebhookPostData)
    (h : data.object ≠ some "page") :
    (webhookPost serverURL data).1 = none := by
  simp [webhookPost, h]

/-- C9 witness: a body with `object = "user"` gets no response. -/
theorem C9_non_page_unanswered_witness :
    (webhookPost "http://s" ⟨some "user", []⟩).1 = none :=
  C9_non_page_unanswered "http://s" ⟨some "user", []⟩ (by decide)

/-- C10: a postback whose payload starts with "restaurant" but is none of the
three configured catalog keys still sends the acknowledgement text and still
issues a generic-template send whose `elements` field is absent (`none`). -/
theorem C10_unknown_restaurant_key (serverURL senderID p : String)
    (h : jsStartsWith p "restaurant" = true)
    (h1 : p ≠ "restaurant_campus_pizza") (h2 : p ≠ "restaurant_foodie_fruitie")
    (h3 : p ≠ "restaurant_williams") :
    receivedPostback serverURL senderID (some p) =
      [sendTextMessage senderID "Want any of these?", Send.generic senderID none] := by
  have hne := restaurantPrefix_ne_empty h
  simp [receivedPostback, hne, h, sendRecommendationsForRestaurant, recommendations,
    h1, h2, h3]

/-- C10 witness: an unconfigured key. -/
theorem C10_unknown_restaurant_key_witness :
    receivedPostback "http://s" "u" (some "restaurant_mcdonalds") =
      [sendTextMessage "u" "Want any of these?", Send.generic "u" none] :=
  C10_unknown_restaurant_key "http://s" "u" "restaurant_mcdonalds"
    (by decide) (by decide) (by decide) (by decide)

/-- C2 counterexample: the payload "item|x" has only 2 `|`-fields, yet the
code answers with the order acknowledgement and a receipt whose missing fields
are absent (price `NaN`), not with the unrecognized-event response. -/
theorem C2_counterexample :
    (jsSplit "item|x" '|').length < 4 ∧
    receivedPostback "http://s" "u" (some "item|x") =
      [Send.text "u" "We got your order!",
       Send.receipt "u"
         { title := some "x", quantity := 1, price := none, currency := "CAD",
           image_url := none }
         { subtotal := none, shipping_cost := some (mkRat 0 1), total_tax := none,
           total_cost := none }] ∧
    receivedPostback "http://s" "u" (some "item|x") ≠
      [Send.text "u" "Sorry, we couldn't understand your message"] := by
  decide

/-- C2 (amended): an "item"-prefixed postback whose payload splits into fewer
than 4 fields does not crash; it sends the order acknowledgement and a receipt
built from the (possibly absent) fields 1–3 of the split, not the
unrecognized-event response. -/
theorem C2_malformed_item_receipt (serverURL senderID p : String)
    (h : jsStartsWith p "item" = true) (_hlen : (jsSplit p '|').length < 4) :
    receivedPostback serverURL senderID (some p) =
      [sendTextMessage senderID "We got your order!",
       sendOrderReceipt senderID (jsSplit p '|')[1]? (jsSplit p '|')[2]?
         (jsSplit p '|')[3]?] := by
  have hne := itemPrefix_ne_empty h
  have hres := itemPrefix_not_restaurant h
  simp [receivedPostback, hne, hres, h]

/-- C2 witness: the 2-field payload "item|x". -/
theorem C2_malformed_item_receipt_witness :
    receivedPostback "http://s" "u" (some "item|x") =
      [sendTextMessage "u" "We got your order!",
       sendOrderReceipt "u" (jsSplit "item|x" '|')[1]? (jsSplit "item|x" '|')[2]?
         (jsSplit "item|x" '|')[3]?] :=
  C2_malformed_item_receipt "http://s" "u" "item|x" (by decide) (by decide)

/-- C4: a well-formed item postback with decimal price `p` yields a receipt
summary with `subtotal = round2 p`, `total_tax = round2 (p * 0.13)` and
`total_cost = round2 (p * 1.13)`, each rounded to 2 decimals independently;
in particular `p = 4.99` gives `total_tax = 0.65` and `total_cost = 5.64`. -/
theorem C4_receipt_rounding :
    (∀ (recipientId : String) (food img_url : Option String) (s : String) (p : ℚ),
        parseDecimal s = some p →
        sendOrderReceipt recipientId food (some s) img_url =
          Send.receipt recipientId
            { title := food, quantity := 1, price := some (round2 p),
              currency := "CAD", image_url := img_url }
            { subtotal := some (round2 p), shipping_cost := some 0,
              total_tax := some (round2 (p * (13 / 100))),
              total_cost := some (round2 (p * (113 / 100))) }) ∧
    parseDecimal "4.99" = some (499 / 100 : ℚ) ∧
    round2 ((499 / 100 : ℚ) * (13 / 100)) = 65 / 100 ∧
    round2 ((499 / 100 : ℚ) * (113 / 100)) = 564 / 100 := by
  have h499 : (mkRat 499 100 : ℚ) = 499 / 100 := by rw [mkRat_eq_q]; norm_num
  have h13 : (mkRat 13 100 : ℚ) = 13 / 100 := by rw [mkRat_eq_q]; norm_num
  have h113 : (mkRat 113 100 : ℚ) = 113 / 100 := by rw [mkRat_eq_q]; norm_num
  have h65 : (mkRat 65 100 : ℚ) = 65 / 100 := by rw [mkRat_eq_q]; norm_num
  have h564 : (mkRat 564 100 : ℚ) = 564 / 100 := by rw [mkRat_eq_q]; norm_num
  refine ⟨?_, ?_, ?_, ?_⟩
  · intro recipientId food img_url s p hp
    have h1 : (mkRat 1 1 : ℚ) = 1 := by rw [mkRat_eq_q]; norm_num
    have h0 : (mkRat 0 1 : ℚ) = 0 := by rw [mkRat_eq_q]; norm_num
    simp only [sendOrderReceipt, jsToNumber, Option.bind, hp, jsRound2, jsMul,
      Option.map, qMul_eq, h1, h0, h13, h113, mul_one]
  · have hp : parseDecimal "4.99" = some (mkRat 499 100) := by decide
    rw [hp, h499]
  · rw [← h499, ← h13, ← h65, ← qMul_eq]
    decide
  · rw [← h499, ← h113, ← h564, ← qMul_eq]
    decide

/-- C4 witness: the receipt for price string "4.99". -/
theorem C4_receipt_rounding_witness :
    sendOrderReceipt "u" (some "Cheese Pizza") (some "4.99") (some "http://x/img.png") =
      Send.receipt "u"
        { title := some "Cheese Pizza", quantity := 1,
          price := some (round2 (mkRat 499 100)), currency := "CAD",
          image_url := some "http://x/img.png" }
        { subtotal := some (round2 (mkRat 499 100)), shipping_cost := some 0,
          total_tax := some (round2 ((mkRat 499 100) * (13 / 100))),
          total_cost := some (round2 ((mkRat 499 100) * (113 / 100))) } :=
  C4_receipt_rounding.1 "u" (some "Cheese Pizza") (some "http://x/img.png") "4.99"
    (mkRat 499 100) (by decide)

set_option maxRecDepth 1000000 in
/-- C1 counterexample: the upper-cased hex digest is case-insensitively equal
to the computed digest, yet the verifier throws instead of accepting — the
comparison in the source is exact string equality against the lowercase
digest, not a case-insensitive hex comparison. -/
theorem C1_counterexample_case_sensitivity :
    hexEqCI "A18991FF7E4513A1C2D2EE51E3A8E99CA891D9CD"
        (hmacSha1Hex (asciiBytes "secret") (asciiBytes "body")) = true ∧
    verifyRequestSignature "secret"
        (some "sha1=A18991FF7E4513A1C2D2EE51E3A8E99CA891D9CD") (asciiBytes "body") =
      VerifyResult.errorThrown := by
  constructor
  · decide
  · decide

/-- C1 (amended): for a present nonempty signature header, the verifier
accepts exactly when the second `=`-field of the header equals — as an exact,
case-sensitive string — the lowercase hex HMAC-SHA1 digest of the raw body
under the shared secret (the method name in the header is ignored; SHA-1 is
always used); on mismatch it throws, aborting the request. -/
theorem C1_signature_exact_match (secret : String) (buf : List Nat) (sig : String)
    (h : ¬sig = "") :
    (verifyRequestSignature secret (some sig) buf = VerifyResult.ok ↔
      (jsSplit sig '=')[1]? = some (hmacSha1Hex (asciiBytes secret) buf)) ∧
    ((jsSplit sig '=')[1]? ≠ some (hmacSha1Hex (asciiBytes secret) buf) →
      verifyRequestSignature secret (some sig) buf = VerifyResult.errorThrown) := by
  simp only [verifyRequestSignature, if_neg h]
  constructor
  · split
    · next hc => simp [hc]
    · next hc => simp [hc]
  · intro hne
    rw [if_neg hne]

set_option maxRecDepth 1000000 in
/-- C1 witness: a correctly signed request (lowercase hex digest) is
accepted. -/
theorem C1_signature_exact_match_witness :
    verifyRequestSignature "secret"
        (some "sha1=a18991ff7e4513a1c2d2ee51e3a8e99ca891d9cd") (asciiBytes "body") =
      VerifyResult.ok :=
  ((C1_signature_exact_match "secret" (asciiBytes "body")
      "sha1=a18991ff7e4513a1c2d2ee51e3a8e99ca891d9cd" (by decide)).1).mpr (by decide)

end Gordan
